import Mathlib

/-!
Shallow embedding of `linera-rpc/src/message.rs`: the `RpcMessage` envelope,
its routing functions (`target_chain_id`, `is_local_message`), the wrap
(`From<_> for RpcMessage`) operations and the typed extraction
(`TryFrom<RpcMessage>`) operations, together with theorems settling the spec
claims about them.  Payload types from other crates of the repository
(`linera-base`, `linera-chain`, `linera-core`, `linera-version`) are not part
of the embedded sources; they are modelled from the spec with just the
structure the envelope layer reads (chain identities and opaque content).
-/

/-- Modelled from the spec: an opaque chain identifier
(`linera_base::identifiers::ChainId`, not under the embedded sources). -/
structure ChainId where
  id : Nat
deriving DecidableEq

/-- Modelled from the spec: a content-addressed blob identifier
(`linera_base::identifiers::BlobId`). -/
structure BlobId where
  id : Nat
deriving DecidableEq

/-- Modelled from the spec: a cryptographic content hash
(`linera_base::crypto::CryptoHash`). -/
structure CryptoHash where
  hash : Nat
deriving DecidableEq

/-- Modelled from the spec: raw blob content
(`linera_base::data_types::BlobContent`). -/
structure BlobContent where
  bytes : List Nat
deriving DecidableEq

/-- Modelled from the spec: a version-info descriptor
(`linera_version::VersionInfo`), opaque to the envelope layer. -/
structure VersionInfo where
  info : Nat
deriving DecidableEq

/-- Modelled from the spec: a proposed block, carrying the identity of the
chain it extends (`linera_chain::data_types::Block`). -/
structure Block where
  chain_id : ChainId
deriving DecidableEq

/-- Modelled from the spec: the content of a block proposal
(`linera_chain::data_types::ProposalContent`). -/
structure ProposalContent where
  block : Block
deriving DecidableEq

/-- Modelled from the spec: a client's block proposal
(`linera_chain::data_types::BlockProposal`). -/
structure BlockProposal where
  content : ProposalContent
deriving DecidableEq

/-- Modelled from the spec: the value certified by a lite certificate,
carrying its chain identity (`linera_chain::data_types::LiteValue`). -/
structure LiteValue where
  chain_id : ChainId
deriving DecidableEq

/-- Modelled from the spec: a lite certificate over a value
(`linera_chain::data_types::LiteCertificate`). -/
structure LiteCertificate where
  value : LiteValue
deriving DecidableEq

/-- Modelled from the spec: the request wrapper carrying a lite certificate
(`linera_rpc::HandleLiteCertRequest`). -/
structure HandleLiteCertRequest where
  certificate : LiteCertificate
deriving DecidableEq

/-- Modelled from the spec: a certified timeout value with its chain
identity (`linera_chain::types::Timeout`). -/
structure Timeout where
  chain_id : ChainId
deriving DecidableEq

/-- Modelled from the spec: a quorum certificate over a timeout; `inner`
yields the certified value (`linera_chain::types::TimeoutCertificate`). -/
structure TimeoutCertificate where
  inner : Timeout
deriving DecidableEq

/-- Modelled from the spec: the request wrapper carrying a timeout
certificate (`linera_rpc::HandleTimeoutCertificateRequest`). -/
structure HandleTimeoutCertificateRequest where
  certificate : TimeoutCertificate
deriving DecidableEq

/-- Modelled from the spec: a validated block with its chain identity
(`linera_chain::types::ValidatedBlock`). -/
structure ValidatedBlock where
  chain_id : ChainId
deriving DecidableEq

/-- Modelled from the spec: a quorum certificate over a validated block
(`linera_chain::types::ValidatedBlockCertificate`). -/
structure ValidatedBlockCertificate where
  inner : ValidatedBlock
deriving DecidableEq

/-- Modelled from the spec: the request wrapper carrying a validated-block
certificate (`linera_rpc::HandleValidatedCertificateRequest`). -/
structure HandleValidatedCertificateRequest where
  certificate : ValidatedBlockCertificate
deriving DecidableEq

/-- Modelled from the spec: a confirmed block with its chain identity
(`linera_chain::types::ConfirmedBlock`). -/
structure ConfirmedBlock where
  chain_id : ChainId
deriving DecidableEq

/-- Modelled from the spec: a quorum certificate over a confirmed block
(`linera_chain::types::ConfirmedBlockCertificate`). -/
structure ConfirmedBlockCertificate where
  inner : ConfirmedBlock
deriving DecidableEq

/-- Modelled from the spec: the request wrapper carrying a confirmed-block
certificate (`linera_rpc::HandleConfirmedCertificateRequest`). -/
structure HandleConfirmedCertificateRequest where
  certificate : ConfirmedBlockCertificate
deriving DecidableEq

/-- Modelled from the spec: a chain-info query addressed to one chain
(`linera_core::data_types::ChainInfoQuery`). -/
structure ChainInfoQuery where
  chain_id : ChainId
deriving DecidableEq

/-- Modelled from the spec: a chain-info response, opaque to the envelope
layer (`linera_core::data_types::ChainInfoResponse`). -/
structure ChainInfoResponse where
  info : Nat
deriving DecidableEq

/-- Modelled from the spec: a single validator's signed vote
(`linera_chain::data_types::LiteVote`), opaque to the envelope layer. -/
structure LiteVote where
  data : Nat
deriving DecidableEq

/-- Modelled from the spec: an internal cross-chain effect-delivery request
(`linera_core::data_types::CrossChainRequest`); it resolves its own target
chain through its own method. -/
structure CrossChainRequest where
  target : ChainId
deriving DecidableEq

/-- Modelled from the spec: the target-resolution method of
`CrossChainRequest`, delegated to by the envelope layer and opaque to it. -/
def CrossChainRequest.target_chain_id (request : CrossChainRequest) : ChainId :=
  request.target

/-- Modelled from the spec: the structured domain error
(`linera_core::node::NodeError`), with at least an unexpected-message kind
and arbitrary remote-failure kinds. -/
inductive NodeError where
  | UnexpectedMessage
  | Other (code : Nat)
deriving DecidableEq

/-- The closed RPC message envelope, translated constructor-for-constructor
from `RpcMessage` in `linera-rpc/src/message.rs` (boxes erased, `Vec` as
`List`). -/
inductive RpcMessage where
  | BlockProposal (proposal : BlockProposal)
  | TimeoutCertificate (request : HandleTimeoutCertificateRequest)
  | ValidatedCertificate (request : HandleValidatedCertificateRequest)
  | ConfirmedCertificate (request : HandleConfirmedCertificateRequest)
  | LiteCertificate (request : HandleLiteCertRequest)
  | ChainInfoQuery (query : ChainInfoQuery)
  | DownloadBlobContent (blob_id : BlobId)
  | DownloadConfirmedBlock (hash : CryptoHash)
  | DownloadCertificates (hashes : List CryptoHash)
  | BlobLastUsedBy (blob_id : BlobId)
  | MissingBlobIds (blob_ids : List BlobId)
  | VersionInfoQuery
  | GenesisConfigHashQuery
  | Vote (vote : LiteVote)
  | ChainInfoResponse (response : ChainInfoResponse)
  | Error (error : NodeError)
  | VersionInfoResponse (version_info : VersionInfo)
  | GenesisConfigHashResponse (hash : CryptoHash)
  | DownloadBlobContentResponse (blob : BlobContent)
  | DownloadConfirmedBlockResponse (block : ConfirmedBlock)
  | DownloadCertificatesResponse (certificates : List ConfirmedBlockCertificate)
  | BlobLastUsedByResponse (hash : CryptoHash)
  | MissingBlobIdsResponse (blob_ids : List BlobId)
  | CrossChainRequest (request : CrossChainRequest)
deriving DecidableEq

/-- `RpcMessage::target_chain_id` from `message.rs` lines 64-97: the chain
targeted by this message, if there is one. -/
def RpcMessage.target_chain_id : RpcMessage → Option ChainId
  | .BlockProposal proposal => some proposal.content.block.chain_id
  | .LiteCertificate request => some request.certificate.value.chain_id
  | .TimeoutCertificate request => some request.certificate.inner.chain_id
  | .ValidatedCertificate request => some request.certificate.inner.chain_id
  | .ConfirmedCertificate request => some request.certificate.inner.chain_id
  | .ChainInfoQuery query => some query.chain_id
  | .CrossChainRequest request => some request.target_chain_id
  | .Vote _
  | .Error _
  | .ChainInfoResponse _
  | .VersionInfoQuery
  | .VersionInfoResponse _
  | .GenesisConfigHashQuery
  | .GenesisConfigHashResponse _
  | .DownloadBlobContent _
  | .DownloadBlobContentResponse _
  | .DownloadConfirmedBlock _
  | .DownloadConfirmedBlockResponse _
  | .DownloadCertificates _
  | .BlobLastUsedBy _
  | .BlobLastUsedByResponse _
  | .MissingBlobIds _
  | .MissingBlobIdsResponse _
  | .DownloadCertificatesResponse _ => none

/-- `RpcMessage::is_local_message` from `message.rs` lines 101-130: whether
this message is executed locally on the proxy. -/
def RpcMessage.is_local_message : RpcMessage → Bool
  | .VersionInfoQuery
  | .GenesisConfigHashQuery
  | .DownloadBlobContent _
  | .DownloadConfirmedBlock _
  | .BlobLastUsedBy _
  | .MissingBlobIds _
  | .DownloadCertificates _ => true
  | .BlockProposal _
  | .LiteCertificate _
  | .TimeoutCertificate _
  | .ValidatedCertificate _
  | .ConfirmedCertificate _
  | .ChainInfoQuery _
  | .CrossChainRequest _
  | .Vote _
  | .Error _
  | .ChainInfoResponse _
  | .VersionInfoResponse _
  | .GenesisConfigHashResponse _
  | .DownloadBlobContentResponse _
  | .DownloadConfirmedBlockResponse _
  | .BlobLastUsedByResponse _
  | .MissingBlobIdsResponse _
  | .DownloadCertificatesResponse _ => false

/-- `TryFrom<RpcMessage> for ChainInfoResponse`, `message.rs` lines 133-142. -/
def ChainInfoResponse.try_from : RpcMessage → Except NodeError ChainInfoResponse
  | .ChainInfoResponse response => .ok response
  | .Error error => .error error
  | _ => .error .UnexpectedMessage

/-- `TryFrom<RpcMessage> for VersionInfo`, `message.rs` lines 144-153. -/
def VersionInfo.try_from : RpcMessage → Except NodeError VersionInfo
  | .VersionInfoResponse version_info => .ok version_info
  | .Error error => .error error
  | _ => .error .UnexpectedMessage

/-- `TryFrom<RpcMessage> for BlobContent`, `message.rs` lines 155-164. -/
def BlobContent.try_from : RpcMessage → Except NodeError BlobContent
  | .DownloadBlobContentResponse blob => .ok blob
  | .Error error => .error error
  | _ => .error .UnexpectedMessage

/-- `TryFrom<RpcMessage> for ConfirmedBlock`, `message.rs` lines 166-175. -/
def ConfirmedBlock.try_from : RpcMessage → Except NodeError ConfirmedBlock
  | .DownloadConfirmedBlockResponse certificate => .ok certificate
  | .Error error => .error error
  | _ => .error .UnexpectedMessage

/-- `TryFrom<RpcMessage> for Vec<ConfirmedBlockCertificate>`, `message.rs`
lines 177-186. -/
def vec_confirmed_block_certificate_try_from :
    RpcMessage → Except NodeError (List ConfirmedBlockCertificate)
  | .DownloadCertificatesResponse certificates => .ok certificates
  | .Error error => .error error
  | _ => .error .UnexpectedMessage

/-- `TryFrom<RpcMessage> for CryptoHash`, `message.rs` lines 188-198. -/
def CryptoHash.try_from : RpcMessage → Except NodeError CryptoHash
  | .BlobLastUsedByResponse hash => .ok hash
  | .GenesisConfigHashResponse hash => .ok hash
  | .Error error => .error error
  | _ => .error .UnexpectedMessage

/-- `TryFrom<RpcMessage> for Vec<BlobId>`, `message.rs` lines 200-209.
Note: the source matches the inbound `MissingBlobIds` variant, not
`MissingBlobIdsResponse`. -/
def vec_blob_id_try_from : RpcMessage → Except NodeError (List BlobId)
  | .MissingBlobIds blob_ids => .ok blob_ids
  | .Error error => .error error
  | _ => .error .UnexpectedMessage

/-- `From<BlockProposal> for RpcMessage`, `message.rs` lines 211-215. -/
def rpc_from_block_proposal (block_proposal : BlockProposal) : RpcMessage :=
  .BlockProposal block_proposal

/-- `From<HandleLiteCertRequest> for RpcMessage`, `message.rs` lines 217-221. -/
def rpc_from_lite_cert_request (request : HandleLiteCertRequest) : RpcMessage :=
  .LiteCertificate request

/-- `From<HandleTimeoutCertificateRequest> for RpcMessage`, `message.rs`
lines 223-227. -/
def rpc_from_timeout_request (request : HandleTimeoutCertificateRequest) : RpcMessage :=
  .TimeoutCertificate request

/-- `From<HandleValidatedCertificateRequest> for RpcMessage`, `message.rs`
lines 229-233. -/
def rpc_from_validated_request (request : HandleValidatedCertificateRequest) : RpcMessage :=
  .ValidatedCertificate request

/-- `From<HandleConfirmedCertificateRequest> for RpcMessage`, `message.rs`
lines 235-239. -/
def rpc_from_confirmed_request (request : HandleConfirmedCertificateRequest) : RpcMessage :=
  .ConfirmedCertificate request

/-- `From<Vec<CryptoHash>> for RpcMessage`, `message.rs` lines 241-245. -/
def rpc_from_vec_crypto_hash (hashes : List CryptoHash) : RpcMessage :=
  .DownloadCertificates hashes

/-- `From<ChainInfoQuery> for RpcMessage`, `message.rs` lines 247-251. -/
def rpc_from_chain_info_query (chain_info_query : ChainInfoQuery) : RpcMessage :=
  .ChainInfoQuery chain_info_query

/-- `From<LiteVote> for RpcMessage`, `message.rs` lines 253-257. -/
def rpc_from_lite_vote (vote : LiteVote) : RpcMessage :=
  .Vote vote

/-- `From<ChainInfoResponse> for RpcMessage`, `message.rs` lines 259-263. -/
def rpc_from_chain_info_response (chain_info_response : ChainInfoResponse) : RpcMessage :=
  .ChainInfoResponse chain_info_response

/-- `From<NodeError> for RpcMessage`, `message.rs` lines 265-269. -/
def rpc_from_node_error (error : NodeError) : RpcMessage :=
  .Error error

/-- `From<CrossChainRequest> for RpcMessage`, `message.rs` lines 271-275. -/
def rpc_from_cross_chain_request (cross_chain_request : CrossChainRequest) : RpcMessage :=
  .CrossChainRequest cross_chain_request

/-- `From<VersionInfo> for RpcMessage`, `message.rs` lines 277-281. -/
def rpc_from_version_info (version_info : VersionInfo) : RpcMessage :=
  .VersionInfoResponse version_info

/-- `From<BlobContent> for RpcMessage`, `message.rs` lines 283-287. -/
def rpc_from_blob_content (blob : BlobContent) : RpcMessage :=
  .DownloadBlobContentResponse blob

/-- `From<ConfirmedBlock> for RpcMessage`, `message.rs` lines 289-293. -/
def rpc_from_confirmed_block (block : ConfirmedBlock) : RpcMessage :=
  .DownloadConfirmedBlockResponse block

/-- `From<Vec<ConfirmedBlockCertificate>> for RpcMessage`, `message.rs`
lines 295-299. -/
def rpc_from_vec_confirmed_block_certificate
    (certificates : List ConfirmedBlockCertificate) : RpcMessage :=
  .DownloadCertificatesResponse certificates

/-- The discriminant tags of the 24 `RpcMessage` variants, one per
constructor of the enum in `message.rs` lines 28-58. -/
inductive RpcMessageKind where
  | BlockProposal
  | TimeoutCertificate
  | ValidatedCertificate
  | ConfirmedCertificate
  | LiteCertificate
  | ChainInfoQuery
  | DownloadBlobContent
  | DownloadConfirmedBlock
  | DownloadCertificates
  | BlobLastUsedBy
  | MissingBlobIds
  | VersionInfoQuery
  | GenesisConfigHashQuery
  | Vote
  | ChainInfoResponse
  | Error
  | VersionInfoResponse
  | GenesisConfigHashResponse
  | DownloadBlobContentResponse
  | DownloadConfirmedBlockResponse
  | DownloadCertificatesResponse
  | BlobLastUsedByResponse
  | MissingBlobIdsResponse
  | CrossChainRequest
deriving DecidableEq, Fintype

/-- The discriminant tag of an envelope value. -/
def RpcMessage.kind : RpcMessage → RpcMessageKind
  | .BlockProposal _ => .BlockProposal
  | .TimeoutCertificate _ => .TimeoutCertificate
  | .ValidatedCertificate _ => .ValidatedCertificate
  | .ConfirmedCertificate _ => .ConfirmedCertificate
  | .LiteCertificate _ => .LiteCertificate
  | .ChainInfoQuery _ => .ChainInfoQuery
  | .DownloadBlobContent _ => .DownloadBlobContent
  | .DownloadConfirmedBlock _ => .DownloadConfirmedBlock
  | .DownloadCertificates _ => .DownloadCertificates
  | .BlobLastUsedBy _ => .BlobLastUsedBy
  | .MissingBlobIds _ => .MissingBlobIds
  | .VersionInfoQuery => .VersionInfoQuery
  | .GenesisConfigHashQuery => .GenesisConfigHashQuery
  | .Vote _ => .Vote
  | .ChainInfoResponse _ => .ChainInfoResponse
  | .Error _ => .Error
  | .VersionInfoResponse _ => .VersionInfoResponse
  | .GenesisConfigHashResponse _ => .GenesisConfigHashResponse
  | .DownloadBlobContentResponse _ => .DownloadBlobContentResponse
  | .DownloadConfirmedBlockResponse _ => .DownloadConfirmedBlockResponse
  | .DownloadCertificatesResponse _ => .DownloadCertificatesResponse
  | .BlobLastUsedByResponse _ => .BlobLastUsedByResponse
  | .MissingBlobIdsResponse _ => .MissingBlobIdsResponse
  | .CrossChainRequest _ => .CrossChainRequest

/-- The 13 inbound kinds, in the order of the enum's inbound group. -/
def RpcMessageKind.inbound : List RpcMessageKind :=
  [.BlockProposal, .TimeoutCertificate, .ValidatedCertificate, .ConfirmedCertificate,
   .LiteCertificate, .ChainInfoQuery, .DownloadBlobContent, .DownloadConfirmedBlock,
   .DownloadCertificates, .BlobLastUsedBy, .MissingBlobIds, .VersionInfoQuery,
   .GenesisConfigHashQuery]

/-- The 10 outbound kinds, in the order of the enum's outbound group. -/
def RpcMessageKind.outbound : List RpcMessageKind :=
  [.Vote, .ChainInfoResponse, .Error, .VersionInfoResponse, .GenesisConfigHashResponse,
   .DownloadBlobContentResponse, .DownloadConfirmedBlockResponse,
   .DownloadCertificatesResponse, .BlobLastUsedByResponse, .MissingBlobIdsResponse]

/-- All variant kinds in declaration order: inbound, outbound, internal. -/
def RpcMessageKind.all : List RpcMessageKind :=
  RpcMessageKind.inbound ++ RpcMessageKind.outbound ++ [RpcMessageKind.CrossChainRequest]

/-- Spec section 4.2: the seven kinds for which `target_chain_id` is said to
return `Some` (a spec-side definition written from the spec's words, for
comparison with the source-derived `RpcMessage.target_chain_id`). -/
def chainTargetedKind : RpcMessageKind → Bool
  | .BlockProposal | .LiteCertificate | .TimeoutCertificate | .ValidatedCertificate
  | .ConfirmedCertificate | .ChainInfoQuery | .CrossChainRequest => true
  | _ => false

/-- Spec section 4.3: the seven kinds said to be answerable locally (a
spec-side definition written from the spec's words, for comparison with the
source-derived `RpcMessage.is_local_message`). -/
def localKind : RpcMessageKind → Bool
  | .VersionInfoQuery | .GenesisConfigHashQuery | .DownloadBlobContent
  | .DownloadConfirmedBlock | .BlobLastUsedBy | .MissingBlobIds
  | .DownloadCertificates => true
  | _ => false

/-- The 18 distinct domain payload types occurring in `RpcMessage` variants
(`message.rs` lines 28-58); the two query kinds without payloads carry
none of these. -/
inductive PayloadType where
  | block_proposal
  | timeout_request
  | validated_request
  | confirmed_request
  | lite_cert_request
  | chain_info_query
  | blob_id
  | crypto_hash
  | vec_crypto_hash
  | vec_blob_id
  | lite_vote
  | chain_info_response
  | node_error
  | version_info
  | blob_content
  | confirmed_block
  | vec_confirmed_block_certificate
  | cross_chain_request
deriving DecidableEq, Fintype

/-- A domain payload value of one of the 18 payload types. -/
inductive Payload where
  | block_proposal (p : BlockProposal)
  | timeout_request (r : HandleTimeoutCertificateRequest)
  | validated_request (r : HandleValidatedCertificateRequest)
  | confirmed_request (r : HandleConfirmedCertificateRequest)
  | lite_cert_request (r : HandleLiteCertRequest)
  | chain_info_query (q : ChainInfoQuery)
  | blob_id (b : BlobId)
  | crypto_hash (h : CryptoHash)
  | vec_crypto_hash (hs : List CryptoHash)
  | vec_blob_id (bs : List BlobId)
  | lite_vote (v : LiteVote)
  | chain_info_response (r : ChainInfoResponse)
  | node_error (e : NodeError)
  | version_info (v : VersionInfo)
  | blob_content (c : BlobContent)
  | confirmed_block (b : ConfirmedBlock)
  | vec_confirmed_block_certificate (cs : List ConfirmedBlockCertificate)
  | cross_chain_request (r : CrossChainRequest)
deriving DecidableEq

/-- The payload type of a payload value. -/
def Payload.payloadType : Payload → PayloadType
  | .block_proposal _ => .block_proposal
  | .timeout_request _ => .timeout_request
  | .validated_request _ => .validated_request
  | .confirmed_request _ => .confirmed_request
  | .lite_cert_request _ => .lite_cert_request
  | .chain_info_query _ => .chain_info_query
  | .blob_id _ => .blob_id
  | .crypto_hash _ => .crypto_hash
  | .vec_crypto_hash _ => .vec_crypto_hash
  | .vec_blob_id _ => .vec_blob_id
  | .lite_vote _ => .lite_vote
  | .chain_info_response _ => .chain_info_response
  | .node_error _ => .node_error
  | .version_info _ => .version_info
  | .blob_content _ => .blob_content
  | .confirmed_block _ => .confirmed_block
  | .vec_confirmed_block_certificate _ => .vec_confirmed_block_certificate
  | .cross_chain_request _ => .cross_chain_request

/-- The wrap direction as the source defines it: the `From<_> for RpcMessage`
impls of `message.rs` lines 211-299, collected over the payload sum.
Payload types without a `From` impl in the source map to `none`. -/
def wrap : Payload → Option RpcMessage
  | .block_proposal p => some (rpc_from_block_proposal p)
  | .lite_cert_request r => some (rpc_from_lite_cert_request r)
  | .timeout_request r => some (rpc_from_timeout_request r)
  | .validated_request r => some (rpc_from_validated_request r)
  | .confirmed_request r => some (rpc_from_confirmed_request r)
  | .vec_crypto_hash hs => some (rpc_from_vec_crypto_hash hs)
  | .chain_info_query q => some (rpc_from_chain_info_query q)
  | .lite_vote v => some (rpc_from_lite_vote v)
  | .chain_info_response r => some (rpc_from_chain_info_response r)
  | .node_error e => some (rpc_from_node_error e)
  | .cross_chain_request r => some (rpc_from_cross_chain_request r)
  | .version_info v => some (rpc_from_version_info v)
  | .blob_content c => some (rpc_from_blob_content c)
  | .confirmed_block b => some (rpc_from_confirmed_block b)
  | .vec_confirmed_block_certificate cs => some (rpc_from_vec_confirmed_block_certificate cs)
  | .blob_id _ => none
  | .crypto_hash _ => none
  | .vec_blob_id _ => none

/-- The variant kind each payload type wraps into under the `From` impls of
`message.rs` lines 211-299, `none` when the source has no impl for it. -/
def wrapTarget : PayloadType → Option RpcMessageKind
  | .block_proposal => some .BlockProposal
  | .lite_cert_request => some .LiteCertificate
  | .timeout_request => some .TimeoutCertificate
  | .validated_request => some .ValidatedCertificate
  | .confirmed_request => some .ConfirmedCertificate
  | .vec_crypto_hash => some .DownloadCertificates
  | .chain_info_query => some .ChainInfoQuery
  | .lite_vote => some .Vote
  | .chain_info_response => some .ChainInfoResponse
  | .node_error => some .Error
  | .cross_chain_request => some .CrossChainRequest
  | .version_info => some .VersionInfoResponse
  | .blob_content => some .DownloadBlobContentResponse
  | .confirmed_block => some .DownloadConfirmedBlockResponse
  | .vec_confirmed_block_certificate => some .DownloadCertificatesResponse
  | .blob_id => none
  | .crypto_hash => none
  | .vec_blob_id => none

/-- The payload owned by an envelope, read back off the variant (the unit
query kinds own none). -/
def RpcMessage.payloadOf : RpcMessage → Option Payload
  | .BlockProposal p => some (.block_proposal p)
  | .TimeoutCertificate r => some (.timeout_request r)
  | .ValidatedCertificate r => some (.validated_request r)
  | .ConfirmedCertificate r => some (.confirmed_request r)
  | .LiteCertificate r => some (.lite_cert_request r)
  | .ChainInfoQuery q => some (.chain_info_query q)
  | .DownloadBlobContent b => some (.blob_id b)
  | .DownloadConfirmedBlock h => some (.crypto_hash h)
  | .DownloadCertificates hs => some (.vec_crypto_hash hs)
  | .BlobLastUsedBy b => some (.blob_id b)
  | .MissingBlobIds bs => some (.vec_blob_id bs)
  | .VersionInfoQuery => none
  | .GenesisConfigHashQuery => none
  | .Vote v => some (.lite_vote v)
  | .ChainInfoResponse r => some (.chain_info_response r)
  | .Error e => some (.node_error e)
  | .VersionInfoResponse v => some (.version_info v)
  | .GenesisConfigHashResponse h => some (.crypto_hash h)
  | .DownloadBlobContentResponse c => some (.blob_content c)
  | .DownloadConfirmedBlockResponse b => some (.confirmed_block b)
  | .DownloadCertificatesResponse cs => some (.vec_confirmed_block_certificate cs)
  | .BlobLastUsedByResponse h => some (.crypto_hash h)
  | .MissingBlobIdsResponse bs => some (.vec_blob_id bs)
  | .CrossChainRequest r => some (.cross_chain_request r)

/-- C1: `target_chain_id` returns `some` chain identifier exactly on the seven
chain-addressed kinds — BlockProposal, LiteCertificate, TimeoutCertificate,
ValidatedCertificate, ConfirmedCertificate, ChainInfoQuery, CrossChainRequest —
drawn from the proposal's block, the certificates' embedded chain identity,
the query, or the cross-chain request's own target resolution, and `none` on
every other variant. -/
theorem target_chain_id_characterization :
    (∀ p, (RpcMessage.BlockProposal p).target_chain_id =
      some p.content.block.chain_id) ∧
    (∀ r, (RpcMessage.LiteCertificate r).target_chain_id =
      some r.certificate.value.chain_id) ∧
    (∀ r, (RpcMessage.TimeoutCertificate r).target_chain_id =
      some r.certificate.inner.chain_id) ∧
    (∀ r, (RpcMessage.ValidatedCertificate r).target_chain_id =
      some r.certificate.inner.chain_id) ∧
    (∀ r, (RpcMessage.ConfirmedCertificate r).target_chain_id =
      some r.certificate.inner.chain_id) ∧
    (∀ q, (RpcMessage.ChainInfoQuery q).target_chain_id = some q.chain_id) ∧
    (∀ r, (RpcMessage.CrossChainRequest r).target_chain_id =
      some r.target_chain_id) ∧
    (∀ m : RpcMessage, m.target_chain_id.isSome = chainTargetedKind m.kind) := by
  refine ⟨fun _ => rfl, fun _ => rfl, fun _ => rfl, fun _ => rfl, fun _ => rfl,
    fun _ => rfl, fun _ => rfl, fun m => ?_⟩
  cases m <;> rfl

/-- C2: `is_local_message` is true exactly on the seven read-only
content-addressed query kinds — VersionInfoQuery, GenesisConfigHashQuery,
DownloadBlobContent, DownloadConfirmedBlock, BlobLastUsedBy, MissingBlobIds,
DownloadCertificates — and false on every other variant, including all
responses and CrossChainRequest. -/
theorem is_local_message_characterization :
    ∀ m : RpcMessage, m.is_local_message = localKind m.kind := by
  intro m
  cases m <;> rfl

/-- C10: locality and chain-addressing are mutually exclusive — every locally
answerable envelope has no target chain. -/
theorem local_implies_no_target :
    ∀ m : RpcMessage, m.is_local_message = true → m.target_chain_id = none := by
  intro m h
  cases m <;> first | rfl | exact absurd h (by simp [RpcMessage.is_local_message])

/-- Witness for C10: the theorem applied at the concrete envelope
`VersionInfoQuery`. -/
theorem local_implies_no_target_witness :
    RpcMessage.is_local_message RpcMessage.VersionInfoQuery = true ∧
    RpcMessage.target_chain_id RpcMessage.VersionInfoQuery = none :=
  ⟨rfl, local_implies_no_target RpcMessage.VersionInfoQuery rfl⟩

/-- C5: error dominance — for every domain error `e`, each of the seven typed
extractors applied to the envelope wrapping `e` into the Error variant
returns that error. -/
theorem error_dominance :
    ∀ e : NodeError,
      ChainInfoResponse.try_from (rpc_from_node_error e) = Except.error e ∧
      VersionInfo.try_from (rpc_from_node_error e) = Except.error e ∧
      BlobContent.try_from (rpc_from_node_error e) = Except.error e ∧
      ConfirmedBlock.try_from (rpc_from_node_error e) = Except.error e ∧
      vec_confirmed_block_certificate_try_from (rpc_from_node_error e) =
        Except.error e ∧
      CryptoHash.try_from (rpc_from_node_error e) = Except.error e ∧
      vec_blob_id_try_from (rpc_from_node_error e) = Except.error e :=
  fun _ => ⟨rfl, rfl, rfl, rfl, rfl, rfl, rfl⟩

/-- C6 (code bug, evaluated at the failing input): the inbound
`MissingBlobIds` envelope is neither the Error variant nor the response
variant correlated with a sequence of blob identifiers, yet extracting that
type from it succeeds instead of yielding the UnexpectedMessage fault
(`message.rs` line 204); the claim's highlighted instance — extracting
ChainInfoResponse from a wrapped VersionInfoResponse — does yield
UnexpectedMessage. -/
theorem mismatch_fault_at_missing_blob_ids :
    vec_blob_id_try_from (RpcMessage.MissingBlobIds [⟨3⟩]) = Except.ok [⟨3⟩] ∧
    ChainInfoResponse.try_from (rpc_from_version_info ⟨1⟩) =
      Except.error NodeError.UnexpectedMessage :=
  ⟨rfl, rfl⟩

/-- C7: the extractor for a single hash succeeds exactly on the two variants
BlobLastUsedByResponse and GenesisConfigHashResponse, returning the owned
hash payload, and fails with UnexpectedMessage on every other non-Error
variant. -/
theorem crypto_hash_extractor_characterization :
    (∀ h, CryptoHash.try_from (RpcMessage.BlobLastUsedByResponse h) =
      Except.ok h) ∧
    (∀ h, CryptoHash.try_from (RpcMessage.GenesisConfigHashResponse h) =
      Except.ok h) ∧
    (∀ m : RpcMessage, m.kind ≠ RpcMessageKind.Error →
      m.kind ≠ RpcMessageKind.BlobLastUsedByResponse →
      m.kind ≠ RpcMessageKind.GenesisConfigHashResponse →
      CryptoHash.try_from m = Except.error NodeError.UnexpectedMessage) := by
  refine ⟨fun _ => rfl, fun _ => rfl, fun m => ?_⟩
  cases m <;> simp [RpcMessage.kind, CryptoHash.try_from]

/-- Witness for C7: the theorem applied at the concrete non-matching envelope
`Vote`, and at concrete hash payloads for the two accepting variants. -/
theorem crypto_hash_extractor_characterization_witness :
    CryptoHash.try_from (RpcMessage.Vote ⟨0⟩) =
      Except.error NodeError.UnexpectedMessage :=
  crypto_hash_extractor_characterization.2.2 (RpcMessage.Vote ⟨0⟩)
    (by decide) (by decide) (by decide)

/-- C3 (code bug, evaluated at the failing input): the extractor for a
sequence of blob identifiers accepts the inbound `MissingBlobIds` variant
and rejects `MissingBlobIdsResponse` — the correlated success response
variant the claim names — with UnexpectedMessage. -/
theorem vec_blob_id_extractor_behavior :
    vec_blob_id_try_from (RpcMessage.MissingBlobIds [⟨0⟩]) = Except.ok [⟨0⟩] ∧
    vec_blob_id_try_from (RpcMessage.MissingBlobIdsResponse [⟨0⟩]) =
      Except.error NodeError.UnexpectedMessage :=
  ⟨rfl, rfl⟩

/-- C4 (code bug, evaluated at concrete inputs): the wrap-then-extract round
trip holds for ChainInfoResponse, VersionInfo, BlobContent, ConfirmedBlock,
certificate sequences and the single hash, but fails for blob-identifier
sequences: extraction from the `MissingBlobIdsResponse` envelope yields
UnexpectedMessage instead of the wrapped sequence. -/
theorem round_trip_evaluation :
    ChainInfoResponse.try_from (rpc_from_chain_info_response ⟨7⟩) =
      Except.ok ⟨7⟩ ∧
    VersionInfo.try_from (rpc_from_version_info ⟨7⟩) = Except.ok ⟨7⟩ ∧
    BlobContent.try_from (rpc_from_blob_content ⟨[7]⟩) = Except.ok ⟨[7]⟩ ∧
    ConfirmedBlock.try_from (rpc_from_confirmed_block ⟨⟨7⟩⟩) =
      Except.ok ⟨⟨7⟩⟩ ∧
    vec_confirmed_block_certificate_try_from
      (rpc_from_vec_confirmed_block_certificate [⟨⟨⟨7⟩⟩⟩]) =
        Except.ok [⟨⟨⟨7⟩⟩⟩] ∧
    CryptoHash.try_from (RpcMessage.BlobLastUsedByResponse ⟨7⟩) =
      Except.ok ⟨7⟩ ∧
    CryptoHash.try_from (RpcMessage.GenesisConfigHashResponse ⟨7⟩) =
      Except.ok ⟨7⟩ ∧
    vec_blob_id_try_from (RpcMessage.MissingBlobIdsResponse [⟨7⟩]) =
      Except.error NodeError.UnexpectedMessage :=
  ⟨rfl, rfl, rfl, rfl, rfl, rfl, rfl, rfl⟩

/-- C8 counterexample: no wrap operation in the source produces the
`DownloadBlobContent` variant, although its payload type (a blob
identifier) is in the closed payload set, so the wrap direction does not
cover every variant's payload type. -/
theorem wrap_not_covering_download_blob_content :
    (∃ p m, wrap p = some m ∧
      RpcMessage.kind m = RpcMessageKind.DownloadBlobContent) = False := by
  refine eq_false ?_
  rintro ⟨p, m, hw, hk⟩
  cases p <;>
    simp only [wrap, rpc_from_block_proposal, rpc_from_lite_cert_request,
      rpc_from_timeout_request, rpc_from_validated_request, rpc_from_confirmed_request,
      rpc_from_vec_crypto_hash, rpc_from_chain_info_query, rpc_from_lite_vote,
      rpc_from_chain_info_response, rpc_from_node_error, rpc_from_cross_chain_request,
      rpc_from_version_info, rpc_from_blob_content, rpc_from_confirmed_block,
      rpc_from_vec_confirmed_block_certificate, Option.some.injEq,
      reduceCtorEq] at hw <;>
    subst hw <;>
    simp [RpcMessage.kind] at hk

/-- C8 as amended: every wrap operation the source defines moves its payload
into one fixed matching variant, no two payload types wrap into the same
variant, and exactly three payload types — blob identifier, single hash and
blob-identifier sequence — have no wrap operation, so the mapping does not
cover every variant's payload type. -/
theorem wrap_characterization :
    (∀ p m, wrap p = some m →
      m.payloadOf = some p ∧ some m.kind = wrapTarget p.payloadType) ∧
    (∀ t1 t2 k, wrapTarget t1 = some k → wrapTarget t2 = some k → t1 = t2) ∧
    (∀ p : Payload, (wrap p).isNone = (wrapTarget p.payloadType).isNone) ∧
    (∀ t, wrapTarget t = none ↔
      (t = PayloadType.blob_id ∨ t = PayloadType.crypto_hash ∨
       t = PayloadType.vec_blob_id)) := by
  refine ⟨fun p m hw => ?_, by decide, fun p => ?_, by decide⟩
  · cases p <;>
      simp only [wrap, rpc_from_block_proposal, rpc_from_lite_cert_request,
        rpc_from_timeout_request, rpc_from_validated_request,
        rpc_from_confirmed_request, rpc_from_vec_crypto_hash,
        rpc_from_chain_info_query, rpc_from_lite_vote, rpc_from_chain_info_response,
        rpc_from_node_error, rpc_from_cross_chain_request, rpc_from_version_info,
        rpc_from_blob_content, rpc_from_confirmed_block,
        rpc_from_vec_confirmed_block_certificate, Option.some.injEq,
        reduceCtorEq] at hw <;>
      subst hw <;>
      exact ⟨rfl, rfl⟩
  · cases p <;> rfl

/-- Witness for C8's amended theorem: applied at the concrete payload of a
chain-info response, whose wrap is the `ChainInfoResponse` variant. -/
theorem wrap_characterization_witness :
    RpcMessage.payloadOf (RpcMessage.ChainInfoResponse ⟨3⟩) =
      some (Payload.chain_info_response ⟨3⟩) ∧
    some (RpcMessage.kind (RpcMessage.ChainInfoResponse ⟨3⟩)) =
      wrapTarget (Payload.payloadType (Payload.chain_info_response ⟨3⟩)) :=
  wrap_characterization.1 (Payload.chain_info_response ⟨3⟩)
    (RpcMessage.ChainInfoResponse ⟨3⟩) rfl

/-- C9 counterexample: the exhaustive list of variant kinds does not have
length 23. -/
theorem kind_count_not_23 :
    (RpcMessageKind.all.length = 23) = False :=
  eq_false (by decide)

/-- C9 as amended: the envelope is a closed sum type of exactly 24 distinct
variants — the 13 inbound kinds, the 10 outbound kinds, and the internal
CrossChainRequest — and every variant kind occurs in the enumeration. -/
theorem kind_enumeration :
    RpcMessageKind.all.length = 24 ∧
    RpcMessageKind.inbound.length = 13 ∧
    RpcMessageKind.outbound.length = 10 ∧
    RpcMessageKind.all =
      RpcMessageKind.inbound ++ RpcMessageKind.outbound ++
        [RpcMessageKind.CrossChainRequest] ∧
    RpcMessageKind.all.Nodup ∧
    (∀ k : RpcMessageKind, k ∈ RpcMessageKind.all) := by
  refine ⟨rfl, rfl, rfl, rfl, by decide, fun k => ?_⟩
  cases k <;> decide
